import Mathlib

/-!
Verification of the specification of a yt-dlp command-line front-end.

This file shallowly embeds the parts of the Rust sources that the claims
are about:

* `src/progress_parser.rs` — the progress-line parser (`ProgressParser::parse`
  and its helpers `parse_size`, `parse_time_str`), including a faithful
  backtracking model of the compiled regular expression
  `\[download\]\s+(?P<percent>[\d.]+)%\s+of\s+(?P<total>[\d.]+)(?P<total_unit>[KMG]iB)`
  `(?:\s+at\s+(?P<speed>[\d.]+)(?P<speed_unit>[KMG]iB)/s)?(?:\s+ETA\s+(?P<eta>\d+:\d+))?`
  under the regex crate's leftmost-first (Perl-like preference) semantics.
* `src/ytdlp_wrapper.rs` — exit-status classification in `download`, the
  per-stdout-line display handling, and `build_command`.
* `src/cli.rs` — `Cli::validate`.
* `src/quality.rs` and `src/cookie_detector.rs` — quality presets and
  browser-name resolution, as consumed by `build_command`.

Modelling conventions:
* Rust `u64`/`usize` become `Nat`; overflow/saturation at `2^64` is modelled
  only where a claim could observe it (`parse::<u64>`).
* Rust `f64` values are modelled as exact scaled decimals (`Dec`): every
  float occurring in this pipeline is produced by parsing a decimal literal
  of shape `[0-9.]+` or by integer truncation, so each is exactly
  `mant / 10 ^ exp`; IEEE rounding is not modelled.  `Dec.val` gives the
  rational value used in specification statements.
* The regex class `\d` is modelled as ASCII digits (the inputs of interest
  are ASCII), `\s` as `Char.isWhitespace`.
* `Result<T, YtdlError>` becomes `Except YtdlError T`.
-/

/-- Accumulate a decimal digit string into a number, as Rust's integer/float
parsing does for the integral and fractional digit runs.  Callers guard that
all characters are ASCII digits. -/
def digitsToNat (s : List Char) : Nat :=
  s.foldl (fun acc c => acc * 10 + (c.toNat - 48)) 0

/-- Model of Rust `str::split(sep)` on character lists: `"a:b"` splits to
`["a", "b"]`, `"::` splits to three empty pieces, `""` to one. -/
def splitOnChar (sep : Char) : List Char → List (List Char)
  | [] => [[]]
  | c :: rest =>
      let r := splitOnChar sep rest
      if c = sep then [] :: r
      else
        match r with
        | h :: t => (c :: h) :: t
        | [] => [[c]]

/-- Model of Rust `str::contains(needle)` for literal needles. -/
def containsSeq (needle : List Char) : List Char → Bool
  | [] => needle.isPrefixOf ([] : List Char)
  | c :: rest => needle.isPrefixOf (c :: rest) || containsSeq needle rest

/-- An exact scaled decimal `mant / 10 ^ exp`, the model of the `f64` values
arising in this pipeline (all are parsed from `[0-9.]+` text or are
truncated integers). -/
structure Dec where
  mant : Nat
  exp : Nat
deriving DecidableEq, Repr

/-- The rational value of a scaled decimal. -/
def Dec.val (d : Dec) : ℚ := (d.mant : ℚ) / 10 ^ d.exp

/-- Model of Rust `str::parse::<f64>()` restricted to the digit-and-dot
strings the regex captures can produce: such a string parses iff it has at
most one `'.'` and at least one digit, and its value is the exact decimal it
denotes. -/
def parseF64 (s : List Char) : Option Dec :=
  if (s.all fun c => c.isDigit || c == '.') && s.count '.' ≤ 1 && s.any Char.isDigit then
    some ⟨digitsToNat (s.filter Char.isDigit), ((s.dropWhile fun c => c ≠ '.').drop 1).length⟩
  else
    none

/-- Model of Rust `str::parse::<u64>()` on the all-digit strings the `\d+`
captures produce (fails on empty input, non-digits, or `u64` overflow). -/
def parseU64 (s : List Char) : Option Nat :=
  if s.isEmpty || !s.all Char.isDigit || decide (2 ^ 64 ≤ digitsToNat s) then none
  else some (digitsToNat s)

/-- `parse_size` from `src/progress_parser.rs:128-136`: scale a magnitude by
its binary unit and truncate to whole bytes (`(value * multiplier) as u64`).
With `value = mant / 10 ^ exp` the truncation is `mant * multiplier / 10 ^ exp`
in natural-number division. -/
def parse_size (value : Dec) (unit : List Char) : Nat :=
  let multiplier : Nat :=
    if unit = "KiB".toList then 1024
    else if unit = "MiB".toList then 1024 * 1024
    else if unit = "GiB".toList then 1024 * 1024 * 1024
    else 1
  value.mant * multiplier / 10 ^ value.exp

/-- `parse_time_str` from `src/progress_parser.rs:139-148`: split on `':'`,
require exactly two pieces, parse both as `u64`, return `minutes * 60 + seconds`. -/
def parse_time_str (time_str : List Char) : Option Nat :=
  match splitOnChar ':' time_str with
  | [m, s] => do
      let minutes ← parseU64 m
      let seconds ← parseU64 s
      some (minutes * 60 + seconds)
  | _ => none

/-- `ProgressInfo` from `src/progress_parser.rs:8-19` (`f64` fields modelled
as exact scaled decimals). -/
structure ProgressInfo where
  percent : Dec
  downloaded_bytes : Option Nat
  total_bytes : Option Nat
  speed : Option Dec
  eta : Option Nat
deriving DecidableEq, Repr

/-- The capture groups of one successful match of the download regex.
`percent`, `total`, `total_unit` are always captured; `speed` (with its unit)
and `eta` are captured only when their optional clause participated. -/
structure RawCaps where
  percent : List Char
  total : List Char
  total_unit : List Char
  speed : Option (List Char × List Char)
  eta : Option (List Char)
deriving DecidableEq, Repr

/-- Regex class `\s` (modelled as Unicode whitespace). -/
def isWs (c : Char) : Bool := c.isWhitespace

/-- Regex class `[\d.]` (digits modelled as ASCII). -/
def isDigDot (c : Char) : Bool := c.isDigit || c == '.'

/-- First character of the regex class `[KMG]iB`. -/
def isUnitStart (c : Char) : Bool := c == 'K' || c == 'M' || c == 'G'

/-- Try `f n, f (n-1), …, f 1` and return the first success: the preference
order of a greedy quantifier choosing how many characters to consume. -/
def firstSome {α : Type} (f : Nat → Option α) : Nat → Option α
  | 0 => none
  | n + 1 => (f (n + 1)) <|> firstSome f n

/-- Greedy `p+` for a character class: consume a nonempty prefix of
characters satisfying `p`, preferring the longest, backtracking through the
continuation `k taken rest`. -/
def matchPlus {α : Type} (p : Char → Bool) (s : List Char)
    (k : List Char → List Char → Option α) : Option α :=
  firstSome (fun n => k (s.take n) (s.drop n)) (s.takeWhile p).length

/-- Match a literal character sequence, then continue on the rest. -/
def matchLit {α : Type} (lit : List Char) (s : List Char)
    (k : List Char → Option α) : Option α :=
  if lit.isPrefixOf s then k (s.drop lit.length) else none

/-- Match the unit class `[KMG]iB`, passing the captured three characters. -/
def matchUnit {α : Type} (s : List Char)
    (k : List Char → List Char → Option α) : Option α :=
  match s with
  | [] => none
  | c :: rest =>
      if isUnitStart c then
        matchLit ['i', 'B'] rest (fun s2 => k [c, 'i', 'B'] s2)
      else none

/-- The greedy optional clause `(?:\s+at\s+(?P<speed>[\d.]+)(?P<speed_unit>[KMG]iB)/s)?`:
prefer taking the clause, fall back (on overall failure) to skipping it. -/
def matchAtClause {α : Type} (s : List Char)
    (k : Option (List Char × List Char) → List Char → Option α) : Option α :=
  (matchPlus isWs s fun _ s1 =>
    matchLit ['a', 't'] s1 fun s2 =>
      matchPlus isWs s2 fun _ s3 =>
        matchPlus isDigDot s3 fun sp s4 =>
          matchUnit s4 fun su s5 =>
            matchLit ['/', 's'] s5 fun s6 =>
              k (some (sp, su)) s6) <|> k none s

/-- The greedy optional clause `(?:\s+ETA\s+(?P<eta>\d+:\d+))?`. -/
def matchEtaClause {α : Type} (s : List Char)
    (k : Option (List Char) → List Char → Option α) : Option α :=
  (matchPlus isWs s fun _ s1 =>
    matchLit ['E', 'T', 'A'] s1 fun s2 =>
      matchPlus isWs s2 fun _ s3 =>
        matchPlus Char.isDigit s3 fun m s4 =>
          matchLit [':'] s4 fun s5 =>
            matchPlus Char.isDigit s5 fun sec s6 =>
              k (some (m ++ ':' :: sec)) s6) <|> k none s

/-- The literal marker `[download]` that the regex begins with and that
`line.contains("[download]")` tests for. -/
def markerChars : List Char := "[download]".toList

/-- Match the body of the download regex after its leading `\[download\]`
literal: `\s+(?P<percent>[\d.]+)%\s+of\s+(?P<total>[\d.]+)(?P<total_unit>[KMG]iB)`
followed by the two optional clauses.  Trailing input is ignored, as an
unanchored regex match ignores it. -/
def matchAfterMarker (s : List Char) : Option RawCaps :=
  matchPlus isWs s fun _ s1 =>
    matchPlus isDigDot s1 fun pct s2 =>
      matchLit ['%'] s2 fun s3 =>
        matchPlus isWs s3 fun _ s4 =>
          matchLit ['o', 'f'] s4 fun s5 =>
            matchPlus isWs s5 fun _ s6 =>
              matchPlus isDigDot s6 fun tot s7 =>
                matchUnit s7 fun tu s8 =>
                  matchAtClause s8 fun sp s9 =>
                    matchEtaClause s9 fun eta _ =>
                      some ⟨pct, tot, tu, sp, eta⟩

/-- `Regex::captures` on the download regex: the match must start at an
occurrence of the `[download]` literal; the leftmost start position admitting
a match wins. -/
def findCaps : List Char → Option RawCaps
  | [] => none
  | c :: rest =>
      (if markerChars.isPrefixOf (c :: rest) then
        matchAfterMarker ((c :: rest).drop markerChars.length)
      else none) <|> findCaps rest

/-- `YtdlError` from `src/error.rs` (the `std::io::Error` payload of
`IoError` is reduced to its message). -/
inductive YtdlError where
  | ytdlpNotFound
  | cookieDetection (msg : String)
  | downloadFailed (msg : String)
  | processError (msg : String)
  | progressParseError (msg : String)
  | ioError (msg : String)
  | other (msg : String)
deriving DecidableEq, Repr

/-- Assemble a `ProgressInfo` from one regex match, as the body of
`ProgressParser::parse` (`src/progress_parser.rs:84-121`) does: a percent
capture that fails float parsing is a `ProgressParseError`; total size,
speed and ETA fields are `none` when their capture is absent or unparsable.
`downloaded_bytes` is `((total as f64) * percent / 100.0) as u64`, i.e.
`total * mant / (100 * 10 ^ exp)` for `percent = mant / 10 ^ exp`. -/
def infoFromCaps (caps : RawCaps) : Except YtdlError ProgressInfo :=
  match parseF64 caps.percent with
  | none => .error (.progressParseError "進捗率のパースに失敗")
  | some percent =>
      let total_bytes := (parseF64 caps.total).map fun v => parse_size v caps.total_unit
      let downloaded_bytes :=
        total_bytes.map fun total => total * percent.mant / (100 * 10 ^ percent.exp)
      let speed := caps.speed.bind fun p =>
        (parseF64 p.1).map fun v => Dec.mk (parse_size v p.2) 0
      let eta := caps.eta.bind parse_time_str
      .ok ⟨percent, downloaded_bytes, total_bytes, speed, eta⟩

namespace ProgressParser

/-- `ProgressParser::parse` (`src/progress_parser.rs:76-124`): lines without
the `[download]` marker are `Ok(None)`; on a regex match the info is
assembled (possibly failing with `ProgressParseError`); a marker line the
regex does not match is also `Ok(None)`. -/
def parse (line : String) : Except YtdlError (Option ProgressInfo) :=
  if containsSeq markerChars line.toList then
    match findCaps line.toList with
    | some caps => (infoFromCaps caps).map some
    | none => .ok none
  else
    .ok none

end ProgressParser

/-- `QualityPreset` from `src/quality.rs`. -/
inductive QualityPreset where
  | maxVideo
  | maxAudio
  | minVideo
  | minSize
deriving DecidableEq, Repr

/-- `QualityPreset::to_ytdlp_format` (`src/quality.rs:25-39`). -/
def QualityPreset.to_ytdlp_format : QualityPreset → String
  | .maxVideo => "bestvideo+bestaudio/best"
  | .maxAudio => "bestaudio"
  | .minVideo => "worstvideo+worstaudio/worst"
  | .minSize => "worst[ext=mp4]"

/-- `QualityPreset::needs_audio_extraction` (`src/quality.rs:42-44`). -/
def QualityPreset.needs_audio_extraction : QualityPreset → Bool
  | .maxAudio => true
  | _ => false

/-- `Browser` from `src/cookie_detector.rs:8-14`. -/
inductive Browser where
  | chrome
  | firefox
  | edge
  | brave
  | opera
deriving DecidableEq, Repr

/-- Rust `str::to_lowercase` modelled as per-character ASCII lowercasing,
which agrees with it on the browser names being compared. -/
def strToLower (s : String) : String := ⟨s.data.map Char.toLower⟩

/-- `Browser::from_str` (`src/cookie_detector.rs:18-27`): case-insensitive
lookup in the fixed browser set. -/
def Browser.fromStr (s : String) : Option Browser :=
  let l := strToLower s
  if l = "chrome" then some .chrome
  else if l = "firefox" then some .firefox
  else if l = "edge" then some .edge
  else if l = "brave" then some .brave
  else if l = "opera" then some .opera
  else none

/-- `Browser::name` (`src/cookie_detector.rs:30-38`), which
`CookieDetector::get_ytdlp_browser_arg` returns verbatim. -/
def Browser.name : Browser → String
  | .chrome => "chrome"
  | .firefox => "firefox"
  | .edge => "edge"
  | .brave => "brave"
  | .opera => "opera"

/-- The `Cli` configuration record from `src/cli.rs:13-98` (`PathBuf` fields
modelled as strings). -/
structure Cli where
  url : Option String
  non_interactive : Bool
  quality : QualityPreset
  output_dir : Option String
  cookie_browser : Option String
  no_cookies : Bool
  playlist : Bool
  playlist_start : Option Nat
  playlist_end : Option Nat
  download_subtitle : Bool
  save_metadata : Bool
  rate_limit : Option String
  retry_count : Nat
  verbose : Bool
  output_template : Option String
  download_archive : Option String
  no_archive : Bool
deriving DecidableEq, Repr

/-- `Cli::validate` (`src/cli.rs:102-127`). The output-directory existence
probe in the source only prints a warning and cannot change the result, so
it is not modelled. -/
def Cli.validate (c : Cli) : Except String Unit :=
  match c.playlist_start, c.playlist_end with
  | some s, some e =>
      if s > e then
        .error ("プレイリスト開始位置(" ++ toString s ++ ")が終了位置(" ++ toString e ++ ")より大きいです")
      else if s = 0 || e = 0 then
        .error "プレイリスト位置は1から始まります"
      else .ok ()
  | _, _ => .ok ()

/-- Unix `PathBuf::join` for a relative right-hand side, as used for
`output_dir.join(output_template)`. -/
def path_join (dir file : String) : String :=
  if dir.endsWith "/" then dir ++ file else dir ++ "/" ++ file

/-- The cookie block of `build_command` (`src/ytdlp_wrapper.rs:200-217`):
resolving the requested browser name can fail (`CookieDetector::from_str`
propagates `CookieDetection` with `?`); on success the two
`--cookies-from-browser` tokens are emitted.  The cookie-path probe that
follows in the source is warn-only and cannot change the result. -/
def cookie_args (c : Cli) : Except YtdlError (List String) :=
  match c.cookie_browser with
  | none => .ok []
  | some b =>
      match Browser.fromStr b with
      | none => .error (.cookieDetection ("サポートされていないブラウザ: " ++ b))
      | some br => .ok ["--cookies-from-browser", br.name]

/-- The output path of `build_command` (`src/ytdlp_wrapper.rs:219-231`):
the template defaults to `%(title)s-%(id)s.%(ext)s` and is joined under the
output directory when one is set. -/
def output_path (c : Cli) : String :=
  let output_template :=
    match c.output_template with
    | some t => t
    | none => "%(title)s-%(id)s.%(ext)s"
  match c.output_dir with
  | some dir => path_join dir output_template
  | none => output_template

/-- The playlist block of `build_command` (`src/ytdlp_wrapper.rs:233-245`). -/
def playlist_args (c : Cli) : List String :=
  if c.playlist then
    (match c.playlist_start with
     | some s => ["--playlist-start", toString s]
     | none => []) ++
    (match c.playlist_end with
     | some e => ["--playlist-end", toString e]
     | none => [])
  else ["--no-playlist"]

/-- All arguments `build_command` pushes before the final URL, in source
order (`src/ytdlp_wrapper.rs:182-285`), given the already-resolved cookie
arguments.  The Windows-only `--encoding utf-8` pair (under
`cfg(target_os = "windows")`) is omitted: a non-Windows build is modelled. -/
def front_args (c : Cli) (cargs : List String) : List String :=
  ["--newline", "--progress", "-f", c.quality.to_ytdlp_format] ++
  (if c.quality.needs_audio_extraction then
    ["-x", "--audio-format", "mp3", "--audio-quality", "0"]
  else []) ++
  cargs ++
  ["-o", output_path c] ++
  playlist_args c ++
  (if c.download_subtitle then ["--write-subs", "--write-auto-subs", "--sub-lang", "ja,en"]
  else []) ++
  (if c.save_metadata then ["--write-info-json", "--write-description", "--write-thumbnail"]
  else []) ++
  (match c.rate_limit with
   | some r => ["--limit-rate", r]
   | none => []) ++
  ["--retries", toString c.retry_count] ++
  (match c.download_archive with
   | some a => ["--download-archive", a]
   | none => []) ++
  ["--no-warnings", "--ignore-errors", "--no-continue"]

/-- `build_command` (`src/ytdlp_wrapper.rs:182-295`) as the argument vector
it produces (the executable is always `yt-dlp`).  The source builds the
vector mutably and checks the URL last, after the cookie block; the two
possible failures are reproduced with their source priority: an unsupported
cookie browser fails first, the missing URL only otherwise.  On success the
URL is appended as the last argument. -/
def build_command (c : Cli) : Except YtdlError (List String) :=
  match cookie_args c with
  | .error e => .error e
  | .ok cargs =>
      match c.url with
      | none => .error (.other "URLが指定されていません")
      | some url => .ok (front_args c cargs ++ [url])

/-- Decide whether a build result is precisely the missing-URL failure
(`YtdlError::Other("URLが指定されていません")`, the spec's `MissingUrl`). -/
def is_missing_url_error : Except YtdlError (List String) → Bool
  | .error (.other m) => m = "URLが指定されていません"
  | _ => false

/-- The argument vector contains the flag immediately followed by its
value. -/
def argPair (flag val : String) (args : List String) : Prop :=
  ∃ pre post, args = pre ++ flag :: val :: post

/-- The stderr phrase whose presence classifies a failure as a bot
challenge (`src/ytdlp_wrapper.rs:139`). -/
def bot_phrase : String := "Sign in to confirm you\x27re not a bot"

/-- The stderr phrase whose presence classifies a failure as a locked
cookie database (`src/ytdlp_wrapper.rs:155`). -/
def cookie_phrase : String := "Could not copy Chrome cookie database"

/-- The typed outcome of one finished download run, as the spec's
`ProcessOutcome` names the terminal branches of `download`
(`src/ytdlp_wrapper.rs:134-178`): `success` is the `Ok(())` branch,
`botChallenge` the `DownloadFailed("YouTube認証エラー…")` branch,
`cookieLocked` the `DownloadFailed("Cookie読み込みエラー…")` branch, and
`genericFailure` the final branch carrying `status.code().unwrap_or(-1)`
and the stderr text that branch prints. -/
inductive DownloadOutcome where
  | success
  | botChallenge
  | cookieLocked
  | genericFailure (exit_code : Int) (diagnostic : String)
deriving DecidableEq, Repr

/-- Exit-status classification at the end of `YtdlpWrapper::download`
(`src/ytdlp_wrapper.rs:134-178`): zero exit is success whatever stderr
holds; otherwise the collected stderr is checked for the bot phrase, then
the cookie phrase, and finally the generic failure keeps the raw exit code
(`status.code().unwrap_or(-1)`) and the whole diagnostic text. -/
def classify_exit (exit_success : Bool) (exit_code : Option Int)
    (stderr_content : String) : DownloadOutcome :=
  if exit_success then .success
  else if containsSeq bot_phrase.toList stderr_content.toList then .botChallenge
  else if containsSeq cookie_phrase.toList stderr_content.toList then .cookieLocked
  else .genericFailure (exit_code.getD (-1)) stderr_content

/-- What the stdout consumer does with one (already trimmed) line
(`src/ytdlp_wrapper.rs:94-107`). -/
inductive LineAction where
  | updateBar (info : ProgressInfo)
  | printLine (line : String)
  | dropLine
deriving DecidableEq, Repr

/-- Per-line display handling in the stdout loop
(`src/ytdlp_wrapper.rs:94-107`): a parsed event updates the bar's position
and message; otherwise (`Ok(None)` or a parse error) a line still containing
the `[download]` marker is forwarded via `pb.println`, and any other line is
dropped. -/
def handle_stdout_line (line : String) : LineAction :=
  match ProgressParser.parse line with
  | .ok (some info) => .updateBar info
  | _ =>
      if containsSeq markerChars line.toList then .printLine line
      else .dropLine

/-! ### Helper lemmas -/

/-- A successful regex search implies the line contains the `[download]`
literal (the regex starts with that literal). -/
lemma findCaps_marker {s : List Char} {caps : RawCaps}
    (h : findCaps s = some caps) : containsSeq markerChars s = true := by
  induction s with
  | nil => simp [findCaps] at h
  | cons c rest ih =>
      unfold findCaps at h
      unfold containsSeq
      cases hp : markerChars.isPrefixOf (c :: rest) with
      | true => simp [hp]
      | false =>
          simp only [hp, Bool.false_or]
          simp only [hp, if_false, Option.none_orElse] at h
          exact ih h

/-- Inversion of a successful parse: the info was assembled from the capture
groups of a successful regex search. -/
lemma parse_ok_some_inv {line : String} {info : ProgressInfo}
    (h : ProgressParser.parse line = .ok (some info)) :
    ∃ caps, findCaps line.toList = some caps ∧ infoFromCaps caps = .ok info := by
  unfold ProgressParser.parse at h
  split at h
  · split at h
    next caps hf =>
      refine ⟨caps, hf, ?_⟩
      cases hi : infoFromCaps caps with
      | error e2 => rw [hi] at h; simp [Except.map] at h
      | ok i =>
          rw [hi] at h
          simp only [Except.map, Except.ok.injEq, Option.some_inj] at h
          rw [h]
    next hf => simp at h
  · simp at h

/-- Inversion of a parse error: the regex matched but the percent capture
failed to parse as a float. -/
lemma parse_error_inv {line : String} {e : YtdlError}
    (h : ProgressParser.parse line = .error e) :
    ∃ caps, findCaps line.toList = some caps ∧ parseF64 caps.percent = none := by
  unfold ProgressParser.parse at h
  split at h
  · split at h
    next caps hf =>
      refine ⟨caps, hf, ?_⟩
      cases hp : parseF64 caps.percent with
      | none => rfl
      | some percent => simp [infoFromCaps, hp, Except.map] at h
    next hf => simp at h
  · simp at h

/-- Inversion of `infoFromCaps`: the field equations of an assembled
`ProgressInfo`. -/
lemma infoFromCaps_ok_inv {caps : RawCaps} {info : ProgressInfo}
    (h : infoFromCaps caps = .ok info) :
    parseF64 caps.percent = some info.percent ∧
    info.total_bytes = (parseF64 caps.total).map (fun v => parse_size v caps.total_unit) ∧
    info.downloaded_bytes = info.total_bytes.map
      (fun total => total * info.percent.mant / (100 * 10 ^ info.percent.exp)) ∧
    info.speed = caps.speed.bind
      (fun p => (parseF64 p.1).map fun v => Dec.mk (parse_size v p.2) 0) ∧
    info.eta = caps.eta.bind parse_time_str := by
  unfold infoFromCaps at h
  cases hp : parseF64 caps.percent with
  | none => rw [hp] at h; exact absurd h (by simp)
  | some percent =>
      rw [hp] at h
      simp only [Except.ok.injEq] at h
      subst h
      exact ⟨rfl, rfl, rfl, rfl, rfl⟩

/-- Natural-number truncating division of products is the rational floor:
the bridge between the embedded `(x as u64)` computations and the spec's
`floor`. -/
lemma natDiv_eq_floor (n d : ℕ) : ((n / d : ℕ) : ℤ) = ⌊(n : ℚ) / (d : ℚ)⌋ := by
  rw [Rat.floor_natCast_div_natCast]
  exact Int.ofNat_tdiv n d

/-- The value of any scaled decimal is nonnegative. -/
lemma Dec.val_nonneg (p : Dec) : 0 ≤ p.val := by
  unfold Dec.val
  positivity

/-- An adjacent flag-value pair at the head of a list. -/
lemma argPair_here {flag val : String} {post : List String} :
    argPair flag val (flag :: val :: post) :=
  ⟨[], post, rfl⟩

/-- An adjacent flag-value pair survives prepending one element. -/
lemma argPair_cons {flag val a : String} {rest : List String}
    (h : argPair flag val rest) : argPair flag val (a :: rest) := by
  obtain ⟨p, q, rfl⟩ := h
  exact ⟨a :: p, q, rfl⟩

/-- An adjacent flag-value pair in the right part of an append. -/
lemma argPair_left {flag val : String} {A B : List String}
    (h : argPair flag val B) : argPair flag val (A ++ B) := by
  obtain ⟨p, q, rfl⟩ := h
  exact ⟨A ++ p, q, by rw [List.append_assoc]⟩

/-- An adjacent flag-value pair in the left part of an append. -/
lemma argPair_right {flag val : String} {A B : List String}
    (h : argPair flag val A) : argPair flag val (A ++ B) := by
  obtain ⟨p, q, rfl⟩ := h
  exact ⟨p, q ++ B, by simp⟩

/-! ### Claim theorems -/

/-- C1: on a non-zero exit the outcome is classified against the collected
stderr text in priority order — bot-challenge phrase first, then the
cookie-database-copy phrase, else a generic failure carrying the raw exit
code and the full diagnostic text; a zero exit is `success` for every
stderr content (and only a zero exit is). -/
theorem c1_exit_classification (exit_code : Option Int) (stderr_content : String) :
    classify_exit true exit_code stderr_content = .success ∧
    (∀ ok : Bool, classify_exit ok exit_code stderr_content = .success → ok = true) ∧
    (classify_exit false exit_code stderr_content = .botChallenge ↔
      containsSeq bot_phrase.data stderr_content.data = true) ∧
    (classify_exit false exit_code stderr_content = .cookieLocked ↔
      (containsSeq bot_phrase.data stderr_content.data = false ∧
        containsSeq cookie_phrase.data stderr_content.data = true)) ∧
    (containsSeq bot_phrase.data stderr_content.data = false →
      containsSeq cookie_phrase.data stderr_content.data = false →
      classify_exit false exit_code stderr_content =
        .genericFailure (exit_code.getD (-1)) stderr_content) := by
  refine ⟨by simp [classify_exit], ?_, ?_, ?_, ?_⟩
  · intro ok h
    cases ok with
    | true => rfl
    | false =>
        revert h
        cases hb : containsSeq bot_phrase.data stderr_content.data <;>
          cases hk : containsSeq cookie_phrase.data stderr_content.data <;>
            simp [classify_exit, hb, hk]
  · cases hb : containsSeq bot_phrase.data stderr_content.data <;>
      cases hk : containsSeq cookie_phrase.data stderr_content.data <;>
        simp [classify_exit, hb, hk]
  · cases hb : containsSeq bot_phrase.data stderr_content.data <;>
      cases hk : containsSeq cookie_phrase.data stderr_content.data <;>
        simp [classify_exit, hb, hk]
  · intro hb hk
    simp [classify_exit, hb, hk]

/-- Witness for `c1_exit_classification` at concrete inputs: a failing run
whose stderr holds the bot phrase is a bot challenge, and one with an
unrelated message is a generic failure keeping code and text. -/
theorem c1_exit_classification_witness :
    classify_exit false (some 1)
        "ERROR: Sign in to confirm you\x27re not a bot. Use --cookies" = .botChallenge ∧
    classify_exit false none "ERROR: network unreachable" =
      .genericFailure (-1) "ERROR: network unreachable" :=
  ⟨(c1_exit_classification (some 1)
      "ERROR: Sign in to confirm you\x27re not a bot. Use --cookies").2.2.1.mpr rfl,
    (c1_exit_classification none "ERROR: network unreachable").2.2.2.2 rfl rfl⟩

/-- C9: validation fails exactly when both playlist bounds are present and
they are inverted or one of them is zero; when at most one bound is present
validation succeeds whatever its value. -/
theorem c9_validate_iff (c : Cli) :
    ((∃ msg, c.validate = .error msg) ↔
      ∃ s e, c.playlist_start = some s ∧ c.playlist_end = some e ∧
        (s > e ∨ s = 0 ∨ e = 0)) ∧
    ((c.playlist_start = none ∨ c.playlist_end = none) → c.validate = .ok ()) := by
  constructor
  · cases hs : c.playlist_start with
    | none =>
        simp only [Cli.validate, hs]
        constructor
        · rintro ⟨msg, hm⟩
          exact absurd hm (by simp)
        · rintro ⟨s, e, hse, -, -⟩
          exact absurd hse (by simp)
    | some s =>
        cases he : c.playlist_end with
        | none =>
            simp only [Cli.validate, hs, he]
            constructor
            · rintro ⟨msg, hm⟩
              simp at hm
            · rintro ⟨s2, e2, -, hee, -⟩
              exact absurd hee (by simp)
        | some e =>
            simp only [Cli.validate, hs, he]
            constructor
            · rintro ⟨msg, hm⟩
              refine ⟨s, e, rfl, rfl, ?_⟩
              by_cases hgt : s > e
              · exact Or.inl hgt
              · rw [if_neg hgt] at hm
                by_cases hz : s = 0 ∨ e = 0
                · exact Or.inr hz
                · rw [if_neg (by simpa using hz)] at hm
                  simp at hm
            · rintro ⟨s2, e2, hss, hee, hbad⟩
              rw [Option.some_inj] at hss hee
              subst hss; subst hee
              rcases hbad with hgt | hz
              · exact ⟨_, by rw [if_pos hgt]⟩
              · by_cases hgt : s > e
                · exact ⟨_, by rw [if_pos hgt]⟩
                · exact ⟨_, by rw [if_neg hgt, if_pos (by simpa using hz)]⟩
  · intro h
    unfold Cli.validate
    rcases h with h | h
    · rw [h]
    · rw [h]
      cases c.playlist_start <;> rfl

/-- Witness for `c9_validate_iff`: the spec's scenario, playlist bounds
`start = 5`, `end = 2`, fails validation. -/
theorem c9_validate_iff_witness :
    ∃ msg, (Cli.mk none false .maxVideo none none false true (some 5) (some 2)
      false false none 3 false none none false).validate = .error msg :=
  (c9_validate_iff _).1.mpr ⟨5, 2, rfl, rfl, Or.inl (by norm_num)⟩

/-- Counterexample to C2: this line contains the `[download]` marker and no
numeric percent, yet the parser returns `Ok(None)` (NoMatch), not a
`ProgressParseError` — the error branch is unreachable unless the full
regex matches. -/
theorem c2_counterexample :
    containsSeq markerChars "[download] Destination: video.mp4".data = true ∧
    ProgressParser.parse "[download] Destination: video.mp4" = .ok none :=
  ⟨rfl, rfl⟩

/-- C2 amended: a line without the marker is always NoMatch; a marker line
yields `ProgressParseError` exactly when the full download regex matches
but the percent capture is not parsable as a float (e.g. dots only), and
such lines exist; marker lines the regex does not match are NoMatch. -/
theorem c2_marker_noMatch_parseError :
    (∀ line : String, containsSeq markerChars line.data = false →
      ProgressParser.parse line = .ok none) ∧
    (∀ line : String,
      (∃ e, ProgressParser.parse line = .error e) ↔
        (∃ caps, findCaps line.data = some caps ∧ parseF64 caps.percent = none)) ∧
    ProgressParser.parse "[download] .% of 1.0KiB" =
      .error (.progressParseError "進捗率のパースに失敗") := by
  refine ⟨?_, ?_, rfl⟩
  · intro line h
    simp [ProgressParser.parse, h]
  · intro line
    constructor
    · rintro ⟨e, he⟩
      exact parse_error_inv he
    · rintro ⟨caps, hf, hp⟩
      have hm : containsSeq markerChars line.data = true := findCaps_marker hf
      exact ⟨.progressParseError "進捗率のパースに失敗",
        by simp [ProgressParser.parse, hm, hf, infoFromCaps, hp, Except.map]⟩

/-- Witness for `c2_marker_noMatch_parseError` at concrete lines: a
markerless line is NoMatch, and a matched line with a dots-only percent
capture is a parse error. -/
theorem c2_marker_noMatch_parseError_witness :
    ProgressParser.parse "progress: 45.2%" = .ok none ∧
    (∃ e, ProgressParser.parse "[download] ...% of 2KiB" = .error e) :=
  ⟨c2_marker_noMatch_parseError.1 "progress: 45.2%" rfl,
    (c2_marker_noMatch_parseError.2.1 "[download] ...% of 2KiB").mpr
      ⟨⟨['.', '.', '.'], ['2'], ['K', 'i', 'B'], none, none⟩, rfl, rfl⟩⟩

/-- Counterexample to C3: this line contains the marker and a numeric
percent but no "of SIZE" clause, and the parser returns `Ok(None)`
(NoMatch), not an Event — the regex requires the "of SIZE" clause. -/
theorem c3_counterexample :
    containsSeq markerChars "[download]  45.2%".data = true ∧
    ProgressParser.parse "[download]  45.2%" = .ok none :=
  ⟨rfl, rfl⟩

/-- C3 amended: an Event requires both the percent and the "of SIZE"
clause; only the "at SPEED/s" and "ETA mm:ss" clauses are each
independently optional (all four presence combinations produce Events,
while dropping the "of" clause produces NoMatch). -/
theorem c3_of_required_at_eta_optional :
    ProgressParser.parse "[download]  45.2% of 123.45MiB at 1.23MiB/s ETA 00:42" =
      .ok (some ⟨⟨452, 1⟩, some 58509911, some 129446707, some ⟨1289748, 0⟩, some 42⟩) ∧
    ProgressParser.parse "[download]  45.2% of 123.45MiB at 1.23MiB/s" =
      .ok (some ⟨⟨452, 1⟩, some 58509911, some 129446707, some ⟨1289748, 0⟩, none⟩) ∧
    ProgressParser.parse "[download]  45.2% of 123.45MiB ETA 00:42" =
      .ok (some ⟨⟨452, 1⟩, some 58509911, some 129446707, none, some 42⟩) ∧
    ProgressParser.parse "[download]  45.2% of 123.45MiB" =
      .ok (some ⟨⟨452, 1⟩, some 58509911, some 129446707, none, none⟩) ∧
    ProgressParser.parse "[download]  45.2%" = .ok none :=
  ⟨rfl, rfl, rfl, rfl, rfl⟩

/-- Counterexample to C7: on this line the parser returns a
`ProgressParseError`, and the stdout loop does not drop it — the line is
forwarded to the live display with `pb.println` (the `else if` branch also
catches the error case, since an error line necessarily contains the
marker). -/
theorem c7_counterexample :
    ProgressParser.parse "[download] .% of 1.0KiB" =
      .error (.progressParseError "進捗率のパースに失敗") ∧
    handle_stdout_line "[download] .% of 1.0KiB" =
      .printLine "[download] .% of 1.0KiB" ∧
    LineAction.printLine "[download] .% of 1.0KiB" ≠ LineAction.dropLine :=
  ⟨rfl, rfl, by simp⟩

/-- C7 amended: a stdout line on which the parser errors is forwarded to
the display as an auxiliary status line (exactly like an unmatched marker
line), and the error value itself goes nowhere else — the handler is total
and the run outcome is classified from exit status and stderr alone. -/
theorem c7_parse_error_forwarded :
    ∀ (line : String) (e : YtdlError),
      ProgressParser.parse line = .error e →
      handle_stdout_line line = .printLine line := by
  intro line e h
  obtain ⟨caps, hf, -⟩ := parse_error_inv h
  have hm : containsSeq markerChars line.data = true := findCaps_marker hf
  simp [handle_stdout_line, h, hm]

/-- Witness for `c7_parse_error_forwarded` at a concrete parse-error line. -/
theorem c7_parse_error_forwarded_witness :
    handle_stdout_line "[download] .% of 9KiB" = .printLine "[download] .% of 9KiB" :=
  c7_parse_error_forwarded _ (.progressParseError "進捗率のパースに失敗") rfl

/-- C4: in every parsed event whose percent lies in `[0, 100]` and whose
total size is known, the downloaded-bytes field is present and equals
`floor(total_bytes * percent / 100)`. -/
theorem c4_downloaded_is_floor :
    ∀ (line : String) (info : ProgressInfo),
      ProgressParser.parse line = .ok (some info) →
      0 ≤ info.percent.val → info.percent.val ≤ 100 →
      ∀ t, info.total_bytes = some t →
        ∃ d, info.downloaded_bytes = some d ∧
          (d : ℤ) = ⌊(t : ℚ) * info.percent.val / 100⌋ := by
  intro line info hp _ _ t ht
  obtain ⟨caps, -, hok⟩ := parse_ok_some_inv hp
  obtain ⟨-, -, hdl, -, -⟩ := infoFromCaps_ok_inv hok
  refine ⟨t * info.percent.mant / (100 * 10 ^ info.percent.exp), ?_, ?_⟩
  · rw [hdl, ht]
    rfl
  · rw [natDiv_eq_floor]
    congr 1
    unfold Dec.val
    push_cast
    rw [← mul_div_assoc, div_div, mul_comm ((10 : ℚ) ^ info.percent.exp) 100]

/-- Witness for `c4_downloaded_is_floor` at the reference line
`[download]  45.2% of 123.45MiB at 1.23MiB/s ETA 00:42`. -/
theorem c4_downloaded_is_floor_witness :
    ∃ d, (ProgressInfo.mk ⟨452, 1⟩ (some 58509911) (some 129446707)
        (some ⟨1289748, 0⟩) (some 42)).downloaded_bytes = some d ∧
      (d : ℤ) = ⌊(129446707 : ℚ) * (Dec.mk 452 1).val / 100⌋ :=
  c4_downloaded_is_floor "[download]  45.2% of 123.45MiB at 1.23MiB/s ETA 00:42"
    ⟨⟨452, 1⟩, some 58509911, some 129446707, some ⟨1289748, 0⟩, some 42⟩
    rfl (by norm_num [Dec.val]) (by norm_num [Dec.val]) 129446707 rfl

/-- Counterexample to C5: the parser does not clamp the reported percent,
so a line claiming `150.0%` yields an event whose percent exceeds 100 and
whose downloaded-bytes (1536) exceeds its total-bytes (1024). -/
theorem c5_counterexample :
    ProgressParser.parse "[download] 150.0% of 1.0KiB" =
      .ok (some ⟨⟨1500, 1⟩, some 1536, some 1024, none, none⟩) ∧
    ¬ (Dec.mk 1500 1).val ≤ 100 ∧ ¬ (1536 : ℕ) ≤ 1024 :=
  ⟨rfl, by norm_num [Dec.val], by norm_num⟩

/-- C5 amended: every parsed event has a nonnegative percent, and whenever
its percent is at most 100 its downloaded-bytes (when present) cannot
exceed its total-bytes; the `0 ≤ percent ≤ 100` range and the
`downloaded ≤ total` bound are not invariants for lines reporting a
percent above 100. -/
theorem c5_event_invariants :
    ∀ (line : String) (info : ProgressInfo),
      ProgressParser.parse line = .ok (some info) →
      0 ≤ info.percent.val ∧
      (info.percent.val ≤ 100 →
        ∀ d t, info.downloaded_bytes = some d → info.total_bytes = some t → d ≤ t) := by
  intro line info hp
  refine ⟨Dec.val_nonneg _, ?_⟩
  intro hle d t hd ht
  obtain ⟨caps, -, hok⟩ := parse_ok_some_inv hp
  obtain ⟨-, -, hdl, -, -⟩ := infoFromCaps_ok_inv hok
  rw [hdl, ht] at hd
  have hd2 : d = t * info.percent.mant / (100 * 10 ^ info.percent.exp) := by
    simpa using hd.symm
  have hm : info.percent.mant ≤ 100 * 10 ^ info.percent.exp := by
    unfold Dec.val at hle
    rw [div_le_iff₀ (by positivity)] at hle
    exact_mod_cast hle
  subst hd2
  calc t * info.percent.mant / (100 * 10 ^ info.percent.exp)
      ≤ t * (100 * 10 ^ info.percent.exp) / (100 * 10 ^ info.percent.exp) :=
        Nat.div_le_div_right (Nat.mul_le_mul_left _ hm)
    _ = t := Nat.mul_div_cancel _ (by positivity)

/-- Witness for `c5_event_invariants` at the reference line: the percent is
nonnegative and the downloaded-bytes respect the total. -/
theorem c5_event_invariants_witness :
    0 ≤ (Dec.mk 452 1).val ∧ (58509911 : ℕ) ≤ 129446707 :=
  ⟨(c5_event_invariants "[download]  45.2% of 123.45MiB at 1.23MiB/s ETA 00:42"
      ⟨⟨452, 1⟩, some 58509911, some 129446707, some ⟨1289748, 0⟩, some 42⟩ rfl).1,
    (c5_event_invariants "[download]  45.2% of 123.45MiB at 1.23MiB/s ETA 00:42"
      ⟨⟨452, 1⟩, some 58509911, some 129446707, some ⟨1289748, 0⟩, some 42⟩ rfl).2
      (by norm_num [Dec.val]) 58509911 129446707 rfl rfl⟩

/-- C10: whenever a parsed event carries a speed, that speed is an
integer-valued number: the magnitude-times-unit product was truncated to
whole bytes per second (`parse_size(...) as f64`) before being stored. -/
theorem c10_speed_is_integral :
    ∀ (line : String) (info : ProgressInfo),
      ProgressParser.parse line = .ok (some info) →
      ∀ s, info.speed = some s → ∃ n : ℕ, s.val = (n : ℚ) := by
  intro line info hp s hs
  obtain ⟨caps, -, hok⟩ := parse_ok_some_inv hp
  obtain ⟨-, -, -, hsp, -⟩ := infoFromCaps_ok_inv hok
  rw [hsp] at hs
  obtain ⟨p, -, hmap⟩ := Option.bind_eq_some.mp hs
  obtain ⟨v, -, hmk⟩ := Option.map_eq_some'.mp hmap
  refine ⟨parse_size v p.2, ?_⟩
  rw [← hmk]
  unfold Dec.val
  norm_num

/-- Witness for `c10_speed_is_integral` at the reference line: the reported
speed `1.23MiB/s` is stored as the whole number 1289748. -/
theorem c10_speed_is_integral_witness :
    ∃ n : ℕ, (Dec.mk 1289748 0).val = (n : ℚ) :=
  c10_speed_is_integral "[download]  45.2% of 123.45MiB at 1.23MiB/s ETA 00:42"
    ⟨⟨452, 1⟩, some 58509911, some 129446707, some ⟨1289748, 0⟩, some 42⟩
    rfl ⟨1289748, 0⟩ rfl

/-- Counterexample to C8: with the URL absent but an unsupported cookie
browser requested, command construction fails with the propagated
`CookieDetection` error, not with the missing-URL error — so "fails with
MissingUrl iff the URL is absent" does not hold of the code. -/
theorem c8_counterexample :
    (Cli.mk none false .maxVideo none (some "safari") false false none none
      false false none 3 false none none false).url = none ∧
    build_command (Cli.mk none false .maxVideo none (some "safari") false false none none
      false false none 3 false none none false) =
      .error (.cookieDetection "サポートされていないブラウザ: safari") ∧
    is_missing_url_error (build_command (Cli.mk none false .maxVideo none (some "safari")
      false false none none false false none 3 false none none false)) = false :=
  ⟨rfl, rfl, rfl⟩

/-- C8 amended: command construction fails with the missing-URL error iff
the URL is absent and any requested credential source resolves (an
unsupported browser name fails first with its own error); on success the
argument vector always contains `--newline`, `--progress`, `-f` with the
format selector, `-o` with the output path, `--retries` with the retry
count, `--no-warnings`, `--ignore-errors` and `--no-continue`, and the URL
is the last argument. -/
theorem c8_missing_url_and_flags (c : Cli) :
    (is_missing_url_error (build_command c) = true ↔
      (c.url = none ∧
        ∀ b, c.cookie_browser = some b → (Browser.fromStr b).isSome = true)) ∧
    (∀ args, build_command c = .ok args →
      "--newline" ∈ args ∧ "--progress" ∈ args ∧ "--no-warnings" ∈ args ∧
      "--ignore-errors" ∈ args ∧ "--no-continue" ∈ args ∧
      argPair "-f" c.quality.to_ytdlp_format args ∧
      argPair "-o" (output_path c) args ∧
      argPair "--retries" (toString c.retry_count) args ∧
      ∃ u, c.url = some u ∧ args.getLast? = some u) := by
  constructor
  · cases hcb : c.cookie_browser with
    | none =>
        cases hu : c.url with
        | none => simp [build_command, cookie_args, hcb, hu, is_missing_url_error]
        | some u => simp [build_command, cookie_args, hcb, hu, is_missing_url_error]
    | some b =>
        cases hfs : Browser.fromStr b with
        | none => simp [build_command, cookie_args, hcb, hfs, is_missing_url_error]
        | some br =>
            cases hu : c.url with
            | none => simp [build_command, cookie_args, hcb, hfs, hu, is_missing_url_error]
            | some u => simp [build_command, cookie_args, hcb, hfs, hu, is_missing_url_error]
  · intro args hargs
    have hinv : ∃ cargs u, cookie_args c = .ok cargs ∧ c.url = some u ∧
        args = front_args c cargs ++ [u] := by
      unfold build_command at hargs
      split at hargs
      next e hce => simp at hargs
      next cargs hce =>
        split at hargs
        next hue => simp at hargs
        next u hue =>
          refine ⟨cargs, u, hce, hue, ?_⟩
          injection hargs with h2
          exact h2.symm
    obtain ⟨cargs, u, hce, hu, harg⟩ := hinv
    subst harg
    refine ⟨?_, ?_, ?_, ?_, ?_, ?_, ?_, ?_, u, hu, List.getLast?_concat _⟩
    · simp [front_args]
    · simp [front_args]
    · simp [front_args]
    · simp [front_args]
    · simp [front_args]
    · exact argPair_cons (argPair_cons argPair_here)
    · exact argPair_right (argPair_right (argPair_right (argPair_right (argPair_right
        (argPair_right (argPair_right (argPair_right (argPair_left argPair_here))))))))
    · exact argPair_right (argPair_right (argPair_right (argPair_left argPair_here)))

/-- Witness for `c8_missing_url_and_flags`: a config lacking only the URL
fails with the missing-URL error, and a minimal successful config yields
the expected vector with the URL last. -/
theorem c8_missing_url_and_flags_witness :
    is_missing_url_error (build_command (Cli.mk none false .maxVideo none none false false
      none none false false none 3 false none none false)) = true ∧
    argPair "--retries" "3"
      ["--newline", "--progress", "-f", "bestvideo+bestaudio/best", "-o",
        "%(title)s-%(id)s.%(ext)s", "--no-playlist", "--retries", "3", "--no-warnings",
        "--ignore-errors", "--no-continue", "https://example.com/v"] ∧
    (∃ us, (Cli.mk (some "https://example.com/v") false .maxVideo none none false false
        none none false false none 3 false none none false).url = some us ∧
      (["--newline", "--progress", "-f", "bestvideo+bestaudio/best", "-o",
        "%(title)s-%(id)s.%(ext)s", "--no-playlist", "--retries", "3", "--no-warnings",
        "--ignore-errors", "--no-continue", "https://example.com/v"]).getLast? = some us) :=
  ⟨(c8_missing_url_and_flags (Cli.mk none false .maxVideo none none false false
      none none false false none 3 false none none false)).1.mpr
    ⟨rfl, fun _ hb => nomatch hb⟩,
    ((c8_missing_url_and_flags (Cli.mk (some "https://example.com/v") false .maxVideo none
        none false false none none false false none 3 false none none false)).2
      ["--newline", "--progress", "-f", "bestvideo+bestaudio/best", "-o",
        "%(title)s-%(id)s.%(ext)s", "--no-playlist", "--retries", "3", "--no-warnings",
        "--ignore-errors", "--no-continue", "https://example.com/v"] rfl).2.2.2.2.2.2.2.1,
    ((c8_missing_url_and_flags (Cli.mk (some "https://example.com/v") false .maxVideo none
        none false false none none false false none 3 false none none false)).2
      ["--newline", "--progress", "-f", "bestvideo+bestaudio/best", "-o",
        "%(title)s-%(id)s.%(ext)s", "--no-playlist", "--retries", "3", "--no-warnings",
        "--ignore-errors", "--no-continue", "https://example.com/v"] rfl).2.2.2.2.2.2.2.2⟩
